import Mathlib

/-!
Shallow embedding of `mongolier/views.py` (django-mongolier): the Mongo-backed
class-based view mixins `BaseMongoMixin`, `BasePaginatedMongoMixin`,
`DetailView`, `PagelessListView` and `ListView`.

Modelling choices:
* A MongoDB document is an association list `List (String × Val)` with Python
  dict semantics (lookup/replace first binding, append new keys at the end).
* `connection.api.find(kwargs, sort=...)` is modelled by its observable result:
  the sorted list `db` of documents matching the query; `.count()` is the
  length of that list and `find(..., limit=l, skip=s, ...)` is `take l ∘ drop s`.
* Python exceptions surface as an explicit `PyErr` value: `KeyError` from
  `dict[k]` / `dict.pop(k)` on a missing key, `ValueError` from `int()` on a
  malformed string, and the framework exception `Http404`.
* Python 2 integer division `/` on nonnegative ints is `Nat` division.
-/

/-- A primitive Python value stored in a document field. -/
inductive Val where
  | str : String → Val
  | int : Int → Val
  deriving DecidableEq, Repr

/-- Python `str()` of a primitive value. -/
def pyStr : Val → String
  | Val.str s => s
  | Val.int i => toString i

/-- A Python dict with values in `α`, as an association list. -/
abbrev PyDict (α : Type) : Type := List (String × α)

/-- Python `d[k]` / `d.get(k)`: value of the first binding of `k`, if any. -/
def dget {α : Type} : PyDict α → String → Option α
  | [], _ => Option.none
  | p :: rest, k => if p.1 = k then Option.some p.2 else dget rest k

/-- Python `d[k] = v`: replace the binding of `k` in place, or append it. -/
def dset {α : Type} : PyDict α → String → α → PyDict α
  | [], k, v => [(k, v)]
  | p :: rest, k, v => if p.1 = k then (k, v) :: rest else p :: dset rest k v

/-- Python `d.pop(k)` (the removal part): drop the bindings of `k`. -/
def dpop {α : Type} : PyDict α → String → PyDict α
  | [], _ => []
  | p :: rest, k => if p.1 = k then dpop rest k else p :: dpop rest k

/-- Python `d.update(**kw)`: set every entry of `kw` in order. -/
def dupdate {α : Type} (d : PyDict α) (kw : PyDict α) : PyDict α :=
  kw.foldl (fun acc p => dset acc p.1 p.2) d

/-- The keys of a dict, in order. -/
def dkeys {α : Type} (d : PyDict α) : List String := d.map Prod.fst

/-- A MongoDB document. -/
abbrev Doc : Type := PyDict Val

/-- A Python exception as it escapes a view method. -/
inductive PyErr where
  | valueError : PyErr
  | keyError : String → PyErr
  | http404 : String → PyErr
  deriving DecidableEq, Repr

/-- Strip leading and trailing whitespace from a list of characters. -/
def trimChars (cs : List Char) : List Char :=
  ((cs.dropWhile Char.isWhitespace).reverse.dropWhile Char.isWhitespace).reverse

/-- Python `int(s)`: optional surrounding whitespace, optional sign, digits. -/
def pyInt? (s : String) : Option Int :=
  let toN : List Char → Nat := fun cs => cs.foldl (fun a c => a * 10 + (c.toNat - 48)) 0
  match trimChars s.toList with
  | [] => Option.none
  | c :: rest =>
    if c = '-' then
      if rest ≠ [] ∧ rest.all Char.isDigit then Option.some (-(toN rest : Int)) else Option.none
    else if c = '+' then
      if rest ≠ [] ∧ rest.all Char.isDigit then Option.some (toN rest : Int) else Option.none
    else
      if (c :: rest).all Char.isDigit then Option.some (toN (c :: rest) : Int) else Option.none

/-- Map a fallible function over a list, stopping at the first exception
(the Python `for` loop over a cursor, where the body may raise). -/
def mapExcept {α β : Type} (f : α → Except PyErr β) : List α → Except PyErr (List β)
  | [] => Except.ok []
  | a :: as =>
    match f a with
    | Except.error e => Except.error e
    | Except.ok b =>
      match mapExcept f as with
      | Except.error e => Except.error e
      | Except.ok bs => Except.ok (b :: bs)

/-- A value stored in the template context dictionary. -/
inductive CtxVal where
  | none : CtxVal
  | int : Int → CtxVal
  | str : String → CtxVal
  | intList : List Int → CtxVal
  | doc : Doc → CtxVal
  | docList : List Doc → CtxVal
  deriving DecidableEq, Repr

/-- The template context dictionary. -/
abbrev Ctx : Type := PyDict CtxVal

/-- Model of `BaseMongoMixin.get_context_data`: start from
`{'object_list': self.results}`, apply `context.update(**kwargs)`, then set
`context[self.context_object_name] = self.results`. -/
def base_get_context_data (results : CtxVal) (context_object_name : String)
    (kwargs : Ctx) : Ctx :=
  let context : Ctx := [("object_list", results)]
  let context := dupdate context kwargs
  dset context context_object_name results

/-- Model of `BasePaginatedMongoMixin.get_context_data`: the base context, then the five
pagination keys set from the mixin's attributes. -/
def paginated_get_context_data (results : CtxVal) (context_object_name : String)
    (page pages page_range previous_page_number next_page_number : CtxVal)
    (kwargs : Ctx) : Ctx :=
  let context := base_get_context_data results context_object_name kwargs
  let context := dset context "page" page
  let context := dset context "pages" pages
  let context := dset context "page_range" page_range
  let context := dset context "previous_page_number" previous_page_number
  dset context "next_page_number" next_page_number

/-- Model of `BaseMongoMixin.get_template_name`: the configured `template_name`, or
`'<collection>/<collection>_<class_type>.html'` when it is `None`. -/
def get_template_name (template_name : Option String) (collection : String)
    (class_type : String) : String :=
  match template_name with
  | Option.none => collection ++ "/" ++ collection ++ "_" ++ class_type ++ ".html"
  | Option.some t => t

/-- The `DetailView.class_type` attribute. -/
def detailView_class_type : String := "detail"

/-- The `PagelessListView.class_type` and `ListView.class_type` attribute. -/
def listView_class_type : String := "list"

/-- The per-view configuration attributes the claims depend on. -/
structure ViewCfg where
  context_object_name : String
  template_name : Option String
  collection : String
  deriving DecidableEq, Repr

/-- The slice of a Django request the views read: `request.GET.get('page')`
(present or absent) and `request.META['PATH_INFO']`. -/
structure Request where
  pageParam : Option String
  pathInfo : String
  deriving DecidableEq, Repr

/-- An HTTP response produced by a view: a `TemplateResponse` with its
template name and context, or an `HttpResponseRedirect` with its URL. -/
inductive HttpResponse where
  | template : String → Ctx → HttpResponse
  | redirect : String → HttpResponse
  deriving DecidableEq, Repr

/-- One document query issued through `connection.api.find` with pagination
arguments: its `limit` and `skip` values. -/
structure QueryCall where
  limit : Nat
  skip : Int
  deriving DecidableEq, Repr

/-- What `get_list` hands back: a `('query', list)` result, a
`('redirect', url)` result, or a Python exception escaping it. -/
inductive Outcome where
  | query : List Doc → Outcome
  | redirect : String → Outcome
  | exn : PyErr → Outcome
  deriving DecidableEq, Repr

/-- The loop body shared by `ListView.get_list` (`addId = true`) and
`PagelessListView.get_list` (`addId = show_id`): copy the document, set
`item_dict['id'] = str(item['_id'])` when `addId`, then `item_dict.pop('_id')`
(a `KeyError` when `'_id'` is absent). -/
def itemTransform (addId : Bool) (item : Doc) : Except PyErr Doc :=
  let step : Except PyErr Doc :=
    if addId then
      match dget item "_id" with
      | Option.none => Except.error (PyErr.keyError "_id")
      | Option.some v => Except.ok (dset item "id" (Val.str (pyStr v)))
    else Except.ok item
  match step with
  | Except.error e => Except.error e
  | Except.ok d =>
    match dget d "_id" with
    | Option.none => Except.error (PyErr.keyError "_id")
    | Option.some _ => Except.ok (dpop d "_id")

/-- The state `ListView.get_list` leaves on the mixin, together with its
return value and the document queries it issued. -/
structure GLResult where
  outcome : Outcome
  pages : Nat
  page : Option Int
  offset : Option Int
  page_range : List Int
  previous_page_number : Option Int
  next_page_number : Option Int
  docQueries : List QueryCall
  deriving DecidableEq, Repr

/-- The previous/next page numbers set by `ListView.get_list` on an in-range
page: the four-way `if / elif / elif / else` chain of lines 219–230. -/
def pnOf (page : Int) (pages : Nat) : Option Int × Option Int :=
  if page = 1 ∧ page = (pages : Int) then (Option.none, Option.none)
  else if page = 1 then (Option.none, Option.some 2)
  else if page = (pages : Int) then (Option.some (page - 1), Option.none)
  else (Option.some (page - 1), Option.some (page + 1))

/-- The documents returned by `connection.api.find(kwargs, limit=L,
skip=offset, sort=...)` over the sorted matching documents `db`. -/
def fetched (db : List Doc) (L : Nat) (offset : Int) : List Doc :=
  (db.drop offset.toNat).take L

/-- The tail of `ListView.get_list` once `self.page` is known: the
`page == 0` / `page <= pages` / `page > pages` chain, the offset and
previous/next page computation, the limited query and the `_id` rewrite. -/
def listView_paginate (db : List Doc) (L : Nat) (req : Request) (pages : Nat)
    (page_range : List Int) (page : Int) (offset0 : Option Int) : GLResult :=
  if page = 0 then
    { outcome := Outcome.redirect (req.pathInfo ++ "?page=1"),
      pages := pages, page := Option.some page, offset := offset0,
      page_range := page_range, previous_page_number := Option.none,
      next_page_number := Option.none, docQueries := [] }
  else if page ≤ (pages : Int) then
    let offset : Int := (page - 1) * (L : Int)
    let pn := pnOf page pages
    match mapExcept (itemTransform true) (fetched db L offset) with
    | Except.error e =>
      { outcome := Outcome.exn e, pages := pages, page := Option.some page,
        offset := Option.some offset, page_range := page_range,
        previous_page_number := pn.1, next_page_number := pn.2,
        docQueries := [⟨L, offset⟩] }
    | Except.ok ql =>
      { outcome := Outcome.query ql, pages := pages, page := Option.some page,
        offset := Option.some offset, page_range := page_range,
        previous_page_number := pn.1, next_page_number := pn.2,
        docQueries := [⟨L, offset⟩] }
  else
    { outcome := Outcome.redirect (req.pathInfo ++ "?page=" ++ toString pages),
      pages := pages, page := Option.some page, offset := offset0,
      page_range := page_range, previous_page_number := Option.none,
      next_page_number := Option.none, docQueries := [] }

/-- The `self.pages` computation of `ListView.get_list` (Python 2 `/` on
nonnegative ints is floor division):
`total_count / L + 1` when `total_count % L > 0`, else `total_count / L`. -/
def pagesOf (total_count L : Nat) : Nat :=
  if total_count % L > 0 then total_count / L + 1 else total_count / L

/-- The `self.page_range` computation of `ListView.get_list`:
`[1]` when `pages == 1`, else `range(1, pages + 1)`. -/
def pageRangeOf (pages : Nat) : List Int :=
  if pages = 1 then [(1 : Int)] else (List.range' 1 pages).map (fun n => (n : Int))

/-- Model of `ListView.get_list`: count the matching documents, derive `pages` and
`page_range`, read `page` from the URL (`KeyError` → page 1, offset 0;
a malformed value → uncaught `ValueError`), then paginate. -/
def listView_get_list (db : List Doc) (L : Nat) (req : Request) : GLResult :=
  let total_count := db.length
  let pages := pagesOf total_count L
  let page_range := pageRangeOf pages
  match req.pageParam with
  | Option.none => listView_paginate db L req pages page_range 1 (Option.some 0)
  | Option.some s =>
    match pyInt? s with
    | Option.none =>
      { outcome := Outcome.exn PyErr.valueError, pages := pages,
        page := Option.none, offset := Option.none, page_range := page_range,
        previous_page_number := Option.none, next_page_number := Option.none,
        docQueries := [] }
    | Option.some p => listView_paginate db L req pages page_range p Option.none

/-- The page number `ListView.get_list` works with: `1` when the request has
no `'page'` parameter, otherwise the value `int()` parses (or nothing, when
`int()` raises `ValueError`). -/
def effectivePage (req : Request) : Option Int :=
  match req.pageParam with
  | Option.none => Option.some 1
  | Option.some s => pyInt? s

/-- Lift a stored `Option Int` attribute into a context value
(`None` or a Python int). -/
def optCtx : Option Int → CtxVal
  | Option.none => CtxVal.none
  | Option.some i => CtxVal.int i

/-- Model of `ListView.get`: dispatch on the tag returned by `get_list`; an empty
`'query'` list raises `Http404`, a nonempty one renders the template with the
paginated context, and a `'redirect'` becomes an `HttpResponseRedirect`. -/
def listView_get (db : List Doc) (L : Nat) (req : Request) (cfg : ViewCfg)
    (kwargs : Ctx) : Except PyErr HttpResponse :=
  let r := listView_get_list db L req
  match r.outcome with
  | Outcome.exn e => Except.error e
  | Outcome.redirect u => Except.ok (HttpResponse.redirect u)
  | Outcome.query ql =>
    if ql.length = 0 then Except.error (PyErr.http404 "List is empty.")
    else
      let context := paginated_get_context_data (CtxVal.docList ql)
        cfg.context_object_name (optCtx r.page) (CtxVal.int (r.pages : Int))
        (CtxVal.intList r.page_range) (optCtx r.previous_page_number)
        (optCtx r.next_page_number) kwargs
      Except.ok (HttpResponse.template
        (get_template_name cfg.template_name cfg.collection listView_class_type)
        context)

/-- Model of `PagelessListView.get_list`: every matching document, rewritten by the
loop body (`'id'` added only when `show_id`). -/
def pagelessListView_get_list (db : List Doc) (show_id : Bool) :
    Except PyErr (List Doc) :=
  mapExcept (itemTransform show_id) db

/-- Model of `PagelessListView.get`: an empty list raises `Http404`, otherwise the
template is rendered with the base context. -/
def pagelessListView_get (db : List Doc) (show_id : Bool) (cfg : ViewCfg)
    (kwargs : Ctx) : Except PyErr HttpResponse :=
  match pagelessListView_get_list db show_id with
  | Except.error e => Except.error e
  | Except.ok ql =>
    if ql.length = 0 then Except.error (PyErr.http404 "List is empty.")
    else
      Except.ok (HttpResponse.template
        (get_template_name cfg.template_name cfg.collection listView_class_type)
        (base_get_context_data (CtxVal.docList ql) cfg.context_object_name kwargs))

/-- Model of `DetailView.get_object`: `found` is what `connection.api.find_one`
returns; `None` raises `Http404`, anything else is tagged `'query'`. -/
def detailView_get_object (found : Option Doc) : Except PyErr (Doc × String) :=
  match found with
  | Option.none => Except.error (PyErr.http404 "List is empty.")
  | Option.some d => Except.ok (d, "query")

/-- Model of `DetailView.get`: a falsy (empty) result dict raises `Http404`, otherwise
the detail template is rendered with the base context. -/
def detailView_get (found : Option Doc) (cfg : ViewCfg) :
    Except PyErr HttpResponse :=
  match detailView_get_object found with
  | Except.error e => Except.error e
  | Except.ok (d, _) =>
    if d.isEmpty then Except.error (PyErr.http404 "List is empty.")
    else
      Except.ok (HttpResponse.template
        (get_template_name cfg.template_name cfg.collection detailView_class_type)
        (base_get_context_data (CtxVal.doc d) cfg.context_object_name []))

theorem dget_dset_self {α : Type} (d : PyDict α) (k : String) (v : α) :
    dget (dset d k v) k = Option.some v := by
  induction d with
  | nil => simp [dset, dget]
  | cons p rest ih =>
    by_cases h : p.1 = k
    · simp [dset, h, dget]
    · simp [dset, h, dget, ih]

theorem dget_dset_of_ne {α : Type} {k kq : String} (d : PyDict α) (v : α)
    (h : kq ≠ k) : dget (dset d k v) kq = dget d kq := by
  have hk : ¬ k = kq := by intro he; exact h he.symm
  induction d with
  | nil => simp [dset, dget, hk]
  | cons p rest ih =>
    by_cases hp : p.1 = k
    · have hpk : ¬ p.1 = kq := by rw [hp]; exact hk
      simp [dset, hp, dget, hk, hpk]
    · simp [dset, hp, dget, ih]

theorem dupdate_nil {α : Type} (d : PyDict α) : dupdate d [] = d := rfl

theorem dupdate_cons {α : Type} (d : PyDict α) (q : String × α) (kw : PyDict α) :
    dupdate d (q :: kw) = dupdate (dset d q.1 q.2) kw := rfl

theorem dget_dupdate_of_not_mem {α : Type} {k : String} (kw : PyDict α)
    (d : PyDict α) (h : k ∉ dkeys kw) : dget (dupdate d kw) k = dget d k := by
  induction kw generalizing d with
  | nil => rfl
  | cons q rest ih =>
    have hq : k ≠ q.1 := fun he => h (by simp [dkeys, he])
    have hr : k ∉ dkeys rest := fun hm => h (by simp [dkeys] at hm ⊢; exact Or.inr hm)
    rw [dupdate_cons, ih _ hr, dget_dset_of_ne _ _ hq]

theorem dget_dupdate_of_mem {α : Type} {k : String} {v : α} (kw : PyDict α)
    (d : PyDict α) (hnd : (dkeys kw).Nodup) (hm : (k, v) ∈ kw) :
    dget (dupdate d kw) k = Option.some v := by
  induction kw generalizing d with
  | nil => cases hm
  | cons q rest ih =>
    have hq : q.1 ∉ dkeys rest := by
      simpa [dkeys] using (List.nodup_cons.mp hnd).1
    rcases List.mem_cons.mp hm with hh | ht
    · subst hh
      rw [dupdate_cons, dget_dupdate_of_not_mem _ _ hq, dget_dset_self]
    · exact dupdate_cons d q rest ▸ ih _ (List.nodup_cons.mp hnd).2 ht

theorem dget_dpop_self {α : Type} (d : PyDict α) (k : String) :
    dget (dpop d k) k = Option.none := by
  induction d with
  | nil => rfl
  | cons p rest ih =>
    by_cases h : p.1 = k
    · simpa [dpop, h] using ih
    · simpa [dpop, h, dget] using ih

theorem dget_dpop_of_ne {α : Type} {k kq : String} (d : PyDict α)
    (h : kq ≠ k) : dget (dpop d k) kq = dget d kq := by
  induction d with
  | nil => rfl
  | cons p rest ih =>
    by_cases hp : p.1 = k
    · have hk : ¬ k = kq := by intro he; exact h he.symm
      simpa [dpop, hp, dget, hk] using ih
    · simp [dpop, hp, dget, ih]

theorem mapExcept_ok_length {α β : Type} {f : α → Except PyErr β}
    {l : List α} {lq : List β} (h : mapExcept f l = Except.ok lq) :
    lq.length = l.length := by
  induction l generalizing lq with
  | nil =>
    simp only [mapExcept] at h
    cases h
    rfl
  | cons a as ih =>
    simp only [mapExcept] at h
    cases hfa : f a with
    | error e => rw [hfa] at h; cases h
    | ok b =>
      rw [hfa] at h
      cases hrest : mapExcept f as with
      | error e => rw [hrest] at h; cases h
      | ok bs =>
        rw [hrest] at h
        cases h
        simp [ih hrest]

theorem mapExcept_ok_mem {α β : Type} {f : α → Except PyErr β}
    {l : List α} {lq : List β} (h : mapExcept f l = Except.ok lq) :
    ∀ b ∈ lq, ∃ a ∈ l, f a = Except.ok b := by
  induction l generalizing lq with
  | nil =>
    simp only [mapExcept] at h
    cases h
    intro b hb
    cases hb
  | cons a as ih =>
    simp only [mapExcept] at h
    cases hfa : f a with
    | error e => rw [hfa] at h; cases h
    | ok b0 =>
      rw [hfa] at h
      cases hrest : mapExcept f as with
      | error e => rw [hrest] at h; cases h
      | ok bs =>
        rw [hrest] at h
        cases h
        intro b hb
        rcases List.mem_cons.mp hb with hh | ht
        · exact ⟨a, List.mem_cons_self a as, hh ▸ hfa⟩
        · rcases ih hrest b ht with ⟨a0, ha0, hfa0⟩
          exact ⟨a0, List.mem_cons_of_mem a ha0, hfa0⟩

theorem paginate_page_zero (db : List Doc) (L : Nat) (req : Request)
    (pages : Nat) (pr : List Int) (off0 : Option Int) :
    listView_paginate db L req pages pr 0 off0 =
      { outcome := Outcome.redirect (req.pathInfo ++ "?page=1"),
        pages := pages, page := Option.some 0, offset := off0,
        page_range := pr, previous_page_number := Option.none,
        next_page_number := Option.none, docQueries := [] } := by
  simp [listView_paginate]

theorem paginate_page_gt (db : List Doc) (L : Nat) (req : Request)
    (pages : Nat) (pr : List Int) (page : Int) (off0 : Option Int)
    (h0 : page ≠ 0) (h1 : ¬ page ≤ (pages : Int)) :
    listView_paginate db L req pages pr page off0 =
      { outcome := Outcome.redirect (req.pathInfo ++ "?page=" ++ toString pages),
        pages := pages, page := Option.some page, offset := off0,
        page_range := pr, previous_page_number := Option.none,
        next_page_number := Option.none, docQueries := [] } := by
  simp [listView_paginate, h0, h1]

theorem paginate_in_range_ok (db : List Doc) (L : Nat) (req : Request)
    (pages : Nat) (pr : List Int) (page : Int) (off0 : Option Int)
    (ql : List Doc) (h0 : page ≠ 0) (h1 : page ≤ (pages : Int))
    (hm : mapExcept (itemTransform true) (fetched db L ((page - 1) * (L : Int)))
      = Except.ok ql) :
    listView_paginate db L req pages pr page off0 =
      { outcome := Outcome.query ql, pages := pages, page := Option.some page,
        offset := Option.some ((page - 1) * (L : Int)), page_range := pr,
        previous_page_number := (pnOf page pages).1,
        next_page_number := (pnOf page pages).2,
        docQueries := [⟨L, (page - 1) * (L : Int)⟩] } := by
  simp [listView_paginate, h0, h1, hm]

theorem paginate_in_range_err (db : List Doc) (L : Nat) (req : Request)
    (pages : Nat) (pr : List Int) (page : Int) (off0 : Option Int)
    (e : PyErr) (h0 : page ≠ 0) (h1 : page ≤ (pages : Int))
    (hm : mapExcept (itemTransform true) (fetched db L ((page - 1) * (L : Int)))
      = Except.error e) :
    listView_paginate db L req pages pr page off0 =
      { outcome := Outcome.exn e, pages := pages, page := Option.some page,
        offset := Option.some ((page - 1) * (L : Int)), page_range := pr,
        previous_page_number := (pnOf page pages).1,
        next_page_number := (pnOf page pages).2,
        docQueries := [⟨L, (page - 1) * (L : Int)⟩] } := by
  simp [listView_paginate, h0, h1, hm]

theorem get_list_no_param (db : List Doc) (L : Nat) (req : Request)
    (h : req.pageParam = Option.none) :
    listView_get_list db L req =
      listView_paginate db L req (pagesOf db.length L)
        (pageRangeOf (pagesOf db.length L)) 1 (Option.some 0) := by
  simp [listView_get_list, h]

theorem get_list_param_parsed (db : List Doc) (L : Nat) (req : Request)
    (s : String) (p : Int) (hs : req.pageParam = Option.some s)
    (hp : pyInt? s = Option.some p) :
    listView_get_list db L req =
      listView_paginate db L req (pagesOf db.length L)
        (pageRangeOf (pagesOf db.length L)) p Option.none := by
  simp [listView_get_list, hs, hp]

theorem get_list_param_malformed (db : List Doc) (L : Nat) (req : Request)
    (s : String) (hs : req.pageParam = Option.some s)
    (hp : pyInt? s = Option.none) :
    listView_get_list db L req =
      { outcome := Outcome.exn PyErr.valueError, pages := pagesOf db.length L,
        page := Option.none, offset := Option.none,
        page_range := pageRangeOf (pagesOf db.length L),
        previous_page_number := Option.none, next_page_number := Option.none,
        docQueries := [] } := by
  simp [listView_get_list, hs, hp]

theorem get_list_eq_paginate (db : List Doc) (L : Nat) (req : Request)
    (p : Int) (h : effectivePage req = Option.some p) :
    ∃ off0, listView_get_list db L req =
      listView_paginate db L req (pagesOf db.length L)
        (pageRangeOf (pagesOf db.length L)) p off0 := by
  cases hq : req.pageParam with
  | none =>
    rw [effectivePage, hq] at h
    cases h
    exact ⟨Option.some 0, get_list_no_param db L req hq⟩
  | some s =>
    rw [effectivePage, hq] at h
    exact ⟨Option.none, get_list_param_parsed db L req s p hq h⟩

theorem paginate_pages (db : List Doc) (L : Nat) (req : Request) (pages : Nat)
    (pr : List Int) (page : Int) (off0 : Option Int) :
    (listView_paginate db L req pages pr page off0).pages = pages := by
  by_cases h0 : page = 0
  · subst h0; rw [paginate_page_zero]
  · by_cases h1 : page ≤ (pages : Int)
    · cases hm : mapExcept (itemTransform true)
        (fetched db L ((page - 1) * (L : Int))) with
      | error e => rw [paginate_in_range_err db L req pages pr page off0 e h0 h1 hm]
      | ok ql => rw [paginate_in_range_ok db L req pages pr page off0 ql h0 h1 hm]
    · rw [paginate_page_gt db L req pages pr page off0 h0 h1]

theorem get_list_pages (db : List Doc) (L : Nat) (req : Request) :
    (listView_get_list db L req).pages = pagesOf db.length L := by
  cases hs : req.pageParam with
  | none => rw [get_list_no_param db L req hs, paginate_pages]
  | some s =>
    cases hp : pyInt? s with
    | none => rw [get_list_param_malformed db L req s hs hp]
    | some p => rw [get_list_param_parsed db L req s p hs hp, paginate_pages]

theorem pagesOf_ceil (n L : Nat) (hL : 0 < L) :
    n ≤ L * pagesOf n L ∧ L * pagesOf n L < n + L := by
  have hdm : L * (n / L) + n % L = n := Nat.div_add_mod n L
  have hlt : n % L < L := Nat.mod_lt n hL
  unfold pagesOf
  by_cases h : n % L > 0
  · rw [if_pos h, Nat.mul_add, Nat.mul_one]
    generalize hT : L * (n / L) = t at hdm
    omega
  · rw [if_neg h]
    generalize hT : L * (n / L) = t at hdm
    omega

/-- C2: with a positive `pagination_limit`, `ListView.get_list` stores in
`self.pages` the value `total_count / L + 1` when `total_count % L > 0` and
`total_count / L` otherwise (Python 2 floor division), and that value is the
ceiling of `total_count / L`, characterised by
`total_count ≤ L * pages < total_count + L`. -/
theorem mongolier_C2 (db : List Doc) (L : Nat) (req : Request) (hL : 0 < L) :
    (listView_get_list db L req).pages =
        (if db.length % L > 0 then db.length / L + 1 else db.length / L) ∧
      db.length ≤ L * (listView_get_list db L req).pages ∧
      L * (listView_get_list db L req).pages < db.length + L := by
  rw [get_list_pages]
  exact ⟨rfl, (pagesOf_ceil db.length L hL).1, (pagesOf_ceil db.length L hL).2⟩

/-- A three-document collection, each document carrying only its `_id`. -/
def dbW : List Doc := [[("_id", Val.int 1)], [("_id", Val.int 2)], [("_id", Val.int 3)]]

/-- A request with no `page` parameter. -/
def reqNoPage : Request := ⟨Option.none, "/w"⟩

theorem mongolier_C2_witness :
    (listView_get_list dbW 2 reqNoPage).pages =
        (if dbW.length % 2 > 0 then dbW.length / 2 + 1 else dbW.length / 2) ∧
      dbW.length ≤ 2 * (listView_get_list dbW 2 reqNoPage).pages ∧
      2 * (listView_get_list dbW 2 reqNoPage).pages < dbW.length + 2 :=
  mongolier_C2 dbW 2 reqNoPage (by decide)

/-- C7: `get_template_name` returns the configured `template_name` when it is
set, and otherwise formats `'<collection>/<collection>_<class_type>.html'`,
with `class_type` `'detail'` on `DetailView` and `'list'` on the list views. -/
theorem mongolier_C7 :
    (∀ t coll ct, get_template_name (Option.some t) coll ct = t) ∧
    (∀ coll, get_template_name Option.none coll detailView_class_type
        = coll ++ "/" ++ coll ++ "_detail.html") ∧
    (∀ coll, get_template_name Option.none coll listView_class_type
        = coll ++ "/" ++ coll ++ "_list.html") := by
  refine ⟨fun t coll ct => rfl, fun coll => ?_, fun coll => ?_⟩ <;>
    simp only [get_template_name, detailView_class_type, listView_class_type,
      String.append_assoc] <;> rfl

theorem paginate_query_inv (db : List Doc) (L : Nat) (req : Request)
    (pages : Nat) (pr : List Int) (page : Int) (off0 : Option Int)
    (ql : List Doc)
    (hq : (listView_paginate db L req pages pr page off0).outcome = Outcome.query ql) :
    page ≠ 0 ∧ page ≤ (pages : Int) ∧
      mapExcept (itemTransform true) (fetched db L ((page - 1) * (L : Int)))
        = Except.ok ql ∧
      (listView_paginate db L req pages pr page off0).docQueries
        = [⟨L, (page - 1) * (L : Int)⟩] ∧
      (listView_paginate db L req pages pr page off0).offset
        = Option.some ((page - 1) * (L : Int)) := by
  by_cases h0 : page = 0
  · subst h0; rw [paginate_page_zero] at hq; cases hq
  · by_cases h1 : page ≤ (pages : Int)
    · cases hm : mapExcept (itemTransform true)
        (fetched db L ((page - 1) * (L : Int))) with
      | error e =>
        rw [paginate_in_range_err db L req pages pr page off0 e h0 h1 hm] at hq
        cases hq
      | ok ql2 =>
        rw [paginate_in_range_ok db L req pages pr page off0 ql2 h0 h1 hm] at hq
        have hql : ql2 = ql := by
          simpa using hq
        subst hql
        exact ⟨h0, h1, rfl,
          by rw [paginate_in_range_ok db L req pages pr page off0 ql2 h0 h1 hm],
          by rw [paginate_in_range_ok db L req pages pr page off0 ql2 h0 h1 hm]⟩
    · rw [paginate_page_gt db L req pages pr page off0 h0 h1] at hq; cases hq

theorem get_list_query_inv (db : List Doc) (L : Nat) (req : Request)
    (ql : List Doc)
    (hq : (listView_get_list db L req).outcome = Outcome.query ql) :
    ∃ p : Int, effectivePage req = Option.some p ∧ p ≠ 0 ∧
      p ≤ (pagesOf db.length L : Int) ∧
      mapExcept (itemTransform true) (fetched db L ((p - 1) * (L : Int)))
        = Except.ok ql ∧
      (listView_get_list db L req).docQueries = [⟨L, (p - 1) * (L : Int)⟩] ∧
      (listView_get_list db L req).offset
        = Option.some ((p - 1) * (L : Int)) := by
  cases hs : req.pageParam with
  | none =>
    rw [get_list_no_param db L req hs] at hq ⊢
    rcases paginate_query_inv _ _ _ _ _ _ _ _ hq with ⟨h0, h1, hm, hdq, hof⟩
    exact ⟨1, by rw [effectivePage, hs], h0, h1, hm, hdq, hof⟩
  | some s =>
    cases hp : pyInt? s with
    | none =>
      rw [get_list_param_malformed db L req s hs hp] at hq
      cases hq
    | some p =>
      rw [get_list_param_parsed db L req s p hs hp] at hq ⊢
      rcases paginate_query_inv _ _ _ _ _ _ _ _ hq with ⟨h0, h1, hm, hdq, hof⟩
      exact ⟨p, by rw [effectivePage, hs]; exact hp, h0, h1, hm, hdq, hof⟩

theorem get_of_redirect (db : List Doc) (L : Nat) (req : Request)
    (cfg : ViewCfg) (kwargs : Ctx) (u : String)
    (hu : (listView_get_list db L req).outcome = Outcome.redirect u) :
    listView_get db L req cfg kwargs = Except.ok (HttpResponse.redirect u) := by
  simp only [listView_get]
  rw [hu]

theorem get_of_exn (db : List Doc) (L : Nat) (req : Request)
    (cfg : ViewCfg) (kwargs : Ctx) (e : PyErr)
    (he : (listView_get_list db L req).outcome = Outcome.exn e) :
    listView_get db L req cfg kwargs = Except.error e := by
  simp only [listView_get]
  rw [he]

theorem get_of_query (db : List Doc) (L : Nat) (req : Request)
    (cfg : ViewCfg) (kwargs : Ctx) (ql : List Doc)
    (hq : (listView_get_list db L req).outcome = Outcome.query ql) :
    listView_get db L req cfg kwargs =
      (if ql.length = 0 then Except.error (PyErr.http404 "List is empty.")
       else Except.ok (HttpResponse.template
         (get_template_name cfg.template_name cfg.collection listView_class_type)
         (paginated_get_context_data (CtxVal.docList ql) cfg.context_object_name
           (optCtx (listView_get_list db L req).page)
           (CtxVal.int ((listView_get_list db L req).pages : Int))
           (CtxVal.intList (listView_get_list db L req).page_range)
           (optCtx (listView_get_list db L req).previous_page_number)
           (optCtx (listView_get_list db L req).next_page_number) kwargs))) := by
  simp only [listView_get]
  rw [hq]

/-- C1: whenever `ListView.get_list` returns a `'query'` result (in
particular on every in-range page request), the returned list holds at most
`pagination_limit` documents, and the one document query it issued used
`limit = pagination_limit`. -/
theorem mongolier_C1 (db : List Doc) (L : Nat) (req : Request) (ql : List Doc)
    (hL : 0 < L)
    (hq : (listView_get_list db L req).outcome = Outcome.query ql) :
    ql.length ≤ L ∧
      ∀ c ∈ (listView_get_list db L req).docQueries, c.limit = L := by
  rcases get_list_query_inv db L req ql hq with ⟨p, _, _, _, hm, hdq, _⟩
  constructor
  · rw [mapExcept_ok_length hm, fetched, List.length_take]
    exact Nat.min_le_left _ _
  · intro c hc
    rw [hdq] at hc
    rcases List.mem_singleton.mp hc with rfl
    rfl

/-- A request for page 1. -/
def reqPage1 : Request := ⟨Option.some "1", "/w"⟩

theorem mongolier_C1_witness :
    ([[("id", Val.str "1")], [("id", Val.str "2")]] : List Doc).length ≤ 2 ∧
      ∀ c ∈ (listView_get_list dbW 2 reqPage1).docQueries, c.limit = 2 :=
  mongolier_C1 dbW 2 reqPage1 [[("id", Val.str "1")], [("id", Val.str "2")]]
    (by decide) (by decide)

/-- C3: on a request whose effective page number `p` is in range
(`1 ≤ p ≤ pages`), `ListView.get_list` sets `self.offset` to
`(p - 1) * pagination_limit` and issues its document query with exactly that
`skip` value (and `limit = pagination_limit`). -/
theorem mongolier_C3 (db : List Doc) (L : Nat) (req : Request) (p : Int)
    (hL : 0 < L) (hp : effectivePage req = Option.some p)
    (h1 : 1 ≤ p) (h2 : p ≤ (pagesOf db.length L : Int)) :
    (listView_get_list db L req).offset = Option.some ((p - 1) * (L : Int)) ∧
      (listView_get_list db L req).docQueries = [⟨L, (p - 1) * (L : Int)⟩] := by
  rcases get_list_eq_paginate db L req p hp with ⟨off0, heq⟩
  rw [heq]
  have h0 : p ≠ 0 := by omega
  cases hm : mapExcept (itemTransform true)
      (fetched db L ((p - 1) * (L : Int))) with
  | error e =>
    rw [paginate_in_range_err db L req (pagesOf db.length L)
      (pageRangeOf (pagesOf db.length L)) p off0 e h0 h2 hm]
    exact ⟨rfl, rfl⟩
  | ok ql =>
    rw [paginate_in_range_ok db L req (pagesOf db.length L)
      (pageRangeOf (pagesOf db.length L)) p off0 ql h0 h2 hm]
    exact ⟨rfl, rfl⟩

/-- A request for page 2. -/
def reqPage2 : Request := ⟨Option.some "2", "/w"⟩

theorem mongolier_C3_witness :
    (listView_get_list dbW 2 reqPage2).offset
        = Option.some ((2 - 1) * ((2 : Nat) : Int)) ∧
      (listView_get_list dbW 2 reqPage2).docQueries
        = [⟨2, (2 - 1) * ((2 : Nat) : Int)⟩] :=
  mongolier_C3 dbW 2 reqPage2 2 (by decide) (by decide) (by decide) (by decide)

/-- C4: `ListView.get_list` produces a `'redirect'` result exactly for
out-of-range page numbers: page `0` redirects to `PATH_INFO + '?page=1'` and
a page above `pages` redirects to `PATH_INFO + '?page=' + pages`, in both
cases issuing no document query; every `'redirect'` result arises from one of
those two cases; and `ListView.get` turns a `'redirect'` result into an
`HttpResponseRedirect` (modelled `HttpResponse.redirect`) to that URL. -/
theorem mongolier_C4 (db : List Doc) (L : Nat) (req : Request) (p : Int)
    (hL : 0 < L) (hp : effectivePage req = Option.some p) :
    (p = 0 →
      (listView_get_list db L req).outcome
          = Outcome.redirect (req.pathInfo ++ "?page=1") ∧
        (listView_get_list db L req).docQueries = []) ∧
    (((listView_get_list db L req).pages : Int) < p →
      (listView_get_list db L req).outcome
          = Outcome.redirect
              (req.pathInfo ++ "?page=" ++ toString (listView_get_list db L req).pages) ∧
        (listView_get_list db L req).docQueries = []) ∧
    (∀ u, (listView_get_list db L req).outcome = Outcome.redirect u →
      p = 0 ∨ ((listView_get_list db L req).pages : Int) < p) ∧
    (∀ u cfg kwargs, (listView_get_list db L req).outcome = Outcome.redirect u →
      listView_get db L req cfg kwargs = Except.ok (HttpResponse.redirect u)) := by
  rcases get_list_eq_paginate db L req p hp with ⟨off0, heq⟩
  have hpg : (listView_get_list db L req).pages = pagesOf db.length L :=
    get_list_pages db L req
  refine ⟨?_, ?_, ?_, fun u cfg kwargs hu => get_of_redirect db L req cfg kwargs u hu⟩
  · intro h0
    subst h0
    rw [heq, paginate_page_zero]
    exact ⟨rfl, rfl⟩
  · intro hgt
    rw [hpg] at hgt
    have h0 : p ≠ 0 := by omega
    have h1 : ¬ p ≤ ((pagesOf db.length L : Nat) : Int) := by omega
    rw [heq, paginate_page_gt db L req (pagesOf db.length L)
      (pageRangeOf (pagesOf db.length L)) p off0 h0 h1]
    exact ⟨rfl, rfl⟩
  · intro u hu
    by_cases h0 : p = 0
    · exact Or.inl h0
    · by_cases h1 : p ≤ ((pagesOf db.length L : Nat) : Int)
      · exfalso
        rw [heq] at hu
        cases hm : mapExcept (itemTransform true)
            (fetched db L ((p - 1) * (L : Int))) with
        | error e =>
          rw [paginate_in_range_err db L req (pagesOf db.length L)
            (pageRangeOf (pagesOf db.length L)) p off0 e h0 h1 hm] at hu
          cases hu
        | ok ql =>
          rw [paginate_in_range_ok db L req (pagesOf db.length L)
            (pageRangeOf (pagesOf db.length L)) p off0 ql h0 h1 hm] at hu
          cases hu
      · rw [hpg]
        exact Or.inr (by omega)

/-- A two-document collection. -/
def dbW2 : List Doc := [[("_id", Val.int 1)], [("_id", Val.int 2)]]

/-- A request for page 9. -/
def reqPage9 : Request := ⟨Option.some "9", "/w"⟩

theorem mongolier_C4_witness :
    ((9 : Int) = 0 →
      (listView_get_list dbW2 2 reqPage9).outcome
          = Outcome.redirect (reqPage9.pathInfo ++ "?page=1") ∧
        (listView_get_list dbW2 2 reqPage9).docQueries = []) ∧
    (((listView_get_list dbW2 2 reqPage9).pages : Int) < 9 →
      (listView_get_list dbW2 2 reqPage9).outcome
          = Outcome.redirect
              (reqPage9.pathInfo ++ "?page=" ++ toString (listView_get_list dbW2 2 reqPage9).pages) ∧
        (listView_get_list dbW2 2 reqPage9).docQueries = []) ∧
    (∀ u, (listView_get_list dbW2 2 reqPage9).outcome = Outcome.redirect u →
      (9 : Int) = 0 ∨ ((listView_get_list dbW2 2 reqPage9).pages : Int) < 9) ∧
    (∀ u cfg kwargs,
      (listView_get_list dbW2 2 reqPage9).outcome = Outcome.redirect u →
      listView_get dbW2 2 reqPage9 cfg kwargs
        = Except.ok (HttpResponse.redirect u)) :=
  mongolier_C4 dbW2 2 reqPage9 9 (by decide) (by decide)

/-- C8: on an empty collection and a request without a `'page'` parameter,
`pages` is `0`, the defaulted page `1` exceeds it, and `get_list` returns a
redirect to `PATH_INFO + '?page=0'` (no `Http404`); a request with `page=0`
in turn redirects to `PATH_INFO + '?page=1'`, closing the redirect cycle. -/
theorem mongolier_C8 (L : Nat) (path : String) (hL : 0 < L) :
    (listView_get_list [] L ⟨Option.none, path⟩).pages = 0 ∧
    (listView_get_list [] L ⟨Option.none, path⟩).outcome
        = Outcome.redirect (path ++ "?page=0") ∧
    (∀ cfg kwargs, listView_get [] L ⟨Option.none, path⟩ cfg kwargs
        = Except.ok (HttpResponse.redirect (path ++ "?page=0"))) ∧
    (listView_get_list [] L ⟨Option.some "0", path⟩).outcome
        = Outcome.redirect (path ++ "?page=1") ∧
    (∀ cfg kwargs, listView_get [] L ⟨Option.some "0", path⟩ cfg kwargs
        = Except.ok (HttpResponse.redirect (path ++ "?page=1"))) := by
  have hpg : pagesOf ([] : List Doc).length L = 0 := by
    simp [pagesOf]
  have h1 : listView_get_list [] L ⟨Option.none, path⟩ =
      listView_paginate [] L ⟨Option.none, path⟩ (pagesOf 0 L)
        (pageRangeOf (pagesOf 0 L)) 1 (Option.some 0) :=
    get_list_no_param [] L ⟨Option.none, path⟩ rfl
  have h1' : listView_get_list [] L ⟨Option.none, path⟩ =
      listView_paginate [] L ⟨Option.none, path⟩ 0 (pageRangeOf 0) 1
        (Option.some 0) := by
    rw [h1]
    simp only [List.length_nil] at hpg
    rw [hpg]
  have hgt : listView_paginate [] L ⟨Option.none, path⟩ 0 (pageRangeOf 0) 1
      (Option.some 0) =
      { outcome := Outcome.redirect (path ++ "?page=" ++ toString (0 : Nat)),
        pages := 0, page := Option.some 1, offset := Option.some 0,
        page_range := pageRangeOf 0, previous_page_number := Option.none,
        next_page_number := Option.none, docQueries := [] } :=
    paginate_page_gt [] L ⟨Option.none, path⟩ 0 (pageRangeOf 0) 1
      (Option.some 0) (by decide) (by decide)
  have h2 : listView_get_list [] L ⟨Option.some "0", path⟩ =
      listView_paginate [] L ⟨Option.some "0", path⟩ (pagesOf 0 L)
        (pageRangeOf (pagesOf 0 L)) 0 Option.none :=
    get_list_param_parsed [] L ⟨Option.some "0", path⟩ "0" 0 rfl (by decide)
  have hz : listView_paginate [] L ⟨Option.some "0", path⟩ (pagesOf 0 L)
      (pageRangeOf (pagesOf 0 L)) 0 Option.none =
      { outcome := Outcome.redirect (path ++ "?page=1"),
        pages := pagesOf 0 L, page := Option.some 0, offset := Option.none,
        page_range := pageRangeOf (pagesOf 0 L),
        previous_page_number := Option.none,
        next_page_number := Option.none, docQueries := [] } :=
    paginate_page_zero [] L ⟨Option.some "0", path⟩ (pagesOf 0 L)
      (pageRangeOf (pagesOf 0 L)) Option.none
  have hout1 : (listView_get_list [] L ⟨Option.none, path⟩).outcome
      = Outcome.redirect (path ++ "?page=0") := by
    rw [h1', hgt]
    show Outcome.redirect (path ++ "?page=" ++ toString (0 : Nat))
      = Outcome.redirect (path ++ "?page=0")
    rw [String.append_assoc]
    rfl
  have hout2 : (listView_get_list [] L ⟨Option.some "0", path⟩).outcome
      = Outcome.redirect (path ++ "?page=1") := by
    rw [h2, hz]
  refine ⟨by rw [h1', hgt], hout1,
    fun cfg kwargs => get_of_redirect _ _ _ cfg kwargs _ hout1, hout2,
    fun cfg kwargs => get_of_redirect _ _ _ cfg kwargs _ hout2⟩

theorem mongolier_C8_witness :
    (listView_get_list [] 25 ⟨Option.none, "/w"⟩).pages = 0 ∧
    (listView_get_list [] 25 ⟨Option.none, "/w"⟩).outcome
        = Outcome.redirect ("/w" ++ "?page=0") ∧
    (∀ cfg kwargs, listView_get [] 25 ⟨Option.none, "/w"⟩ cfg kwargs
        = Except.ok (HttpResponse.redirect ("/w" ++ "?page=0"))) ∧
    (listView_get_list [] 25 ⟨Option.some "0", "/w"⟩).outcome
        = Outcome.redirect ("/w" ++ "?page=1") ∧
    (∀ cfg kwargs, listView_get [] 25 ⟨Option.some "0", "/w"⟩ cfg kwargs
        = Except.ok (HttpResponse.redirect ("/w" ++ "?page=1"))) :=
  mongolier_C8 25 "/w" (by decide)

/-- C9: when the `'page'` GET parameter is present but not a decimal integer
string, `int()` raises `ValueError`; the `try` block only catches `KeyError`,
so `get_list` (and hence `get`) lets the `ValueError` escape instead of
redirecting or raising `Http404`. -/
theorem mongolier_C9 (db : List Doc) (L : Nat) (req : Request) (s : String)
    (hL : 0 < L) (hs : req.pageParam = Option.some s)
    (hp : pyInt? s = Option.none) :
    (listView_get_list db L req).outcome = Outcome.exn PyErr.valueError ∧
      ∀ cfg kwargs, listView_get db L req cfg kwargs
        = Except.error PyErr.valueError := by
  have h : (listView_get_list db L req).outcome = Outcome.exn PyErr.valueError := by
    rw [get_list_param_malformed db L req s hs hp]
  exact ⟨h, fun cfg kwargs => get_of_exn db L req cfg kwargs PyErr.valueError h⟩

theorem mongolier_C9_witness :
    (listView_get_list dbW 25 ⟨Option.some "abc", "/w"⟩).outcome
        = Outcome.exn PyErr.valueError ∧
      ∀ cfg kwargs, listView_get dbW 25 ⟨Option.some "abc", "/w"⟩ cfg kwargs
        = Except.error PyErr.valueError :=
  mongolier_C9 dbW 25 ⟨Option.some "abc", "/w"⟩ "abc" (by decide) rfl (by decide)

theorem itemTransform_ok_of_id (addId : Bool) (item : Doc)
    (h : (dget item "_id").isSome) :
    ∃ dq, itemTransform addId item = Except.ok dq := by
  rcases Option.isSome_iff_exists.mp h with ⟨v, hv⟩
  cases addId with
  | false => exact ⟨dpop item "_id", by simp [itemTransform, hv]⟩
  | true =>
    refine ⟨dpop (dset item "id" (Val.str (pyStr v))) "_id", ?_⟩
    have hid : dget (dset item "id" (Val.str (pyStr v))) "_id" = Option.some v := by
      rw [dget_dset_of_ne _ _ (by decide)]
      exact hv
    simp [itemTransform, hv, hid]

theorem mapExcept_ok_of_forall {α β : Type} (f : α → Except PyErr β)
    (l : List α) (h : ∀ a ∈ l, ∃ b, f a = Except.ok b) :
    ∃ lq, mapExcept f l = Except.ok lq := by
  induction l with
  | nil => exact ⟨[], rfl⟩
  | cons a as ih =>
    rcases h a (List.mem_cons_self a as) with ⟨b, hb⟩
    rcases ih (fun x hx => h x (List.mem_cons_of_mem a hx)) with ⟨bs, hbs⟩
    exact ⟨b :: bs, by simp [mapExcept, hb, hbs]⟩

theorem fetched_id_isSome (db : List Doc) (L : Nat) (off : Int)
    (hid : ∀ d ∈ db, (dget d "_id").isSome) :
    ∀ d ∈ fetched db L off, (dget d "_id").isSome := by
  intro d hd
  rw [fetched] at hd
  exact hid d (List.drop_subset _ db (List.take_subset _ _ hd))

/-- C5: failure signalling is `Http404` and nothing else. `DetailView`
raises `Http404` when `find_one` returns `None` and only ever raises
`Http404`; each list view's `get` raises `Http404` exactly on an empty
result list, and (on documents carrying `'_id'`, with a parseable page
parameter for `ListView`) `Http404` is the only exception either list view's
`get` produces. No custom exception type exists in the model: `PyErr` covers
the framework `Http404` plus Python's built-in `KeyError`/`ValueError`. -/
theorem mongolier_C5 :
    (detailView_get_object Option.none
        = Except.error (PyErr.http404 "List is empty.")) ∧
    (∀ found cfg e, detailView_get found cfg = Except.error e →
      e = PyErr.http404 "List is empty.") ∧
    (∀ db show_id ql cfg kwargs,
      pagelessListView_get_list db show_id = Except.ok ql → ql.length = 0 →
      pagelessListView_get db show_id cfg kwargs
        = Except.error (PyErr.http404 "List is empty.")) ∧
    (∀ db show_id cfg kwargs e, (∀ d ∈ db, (dget d "_id").isSome) →
      pagelessListView_get db show_id cfg kwargs = Except.error e →
      e = PyErr.http404 "List is empty.") ∧
    (∀ db L req ql cfg kwargs,
      (listView_get_list db L req).outcome = Outcome.query ql → ql.length = 0 →
      listView_get db L req cfg kwargs
        = Except.error (PyErr.http404 "List is empty.")) ∧
    (∀ db L req p cfg kwargs e, 0 < L → effectivePage req = Option.some p →
      (∀ d ∈ db, (dget d "_id").isSome) →
      listView_get db L req cfg kwargs = Except.error e →
      e = PyErr.http404 "List is empty.") := by
  refine ⟨rfl, ?_, ?_, ?_, ?_, ?_⟩
  · intro found cfg e h
    cases found with
    | none =>
      simp [detailView_get, detailView_get_object] at h
      exact h.symm
    | some d =>
      by_cases hd : d.isEmpty <;>
        simp [detailView_get, detailView_get_object, hd] at h
      exact h.symm
  · intro db show_id ql cfg kwargs hql hlen
    simp only [pagelessListView_get]
    rw [hql]
    simp [hlen]
  · intro db show_id cfg kwargs e hid h
    have hall : ∀ d ∈ db, ∃ dq, itemTransform show_id d = Except.ok dq :=
      fun d hd => itemTransform_ok_of_id show_id d (hid d hd)
    rcases mapExcept_ok_of_forall (itemTransform show_id) db hall with ⟨ql, hql⟩
    have hql2 : pagelessListView_get_list db show_id = Except.ok ql := hql
    rw [pagelessListView_get] at h
    rw [hql2] at h
    by_cases hlen : ql.length = 0
    · simp [hlen] at h
      exact h.symm
    · simp [hlen] at h
  · intro db L req ql cfg kwargs hq hlen
    rw [get_of_query db L req cfg kwargs ql hq, if_pos hlen]
  · intro db L req p cfg kwargs e hL hp hid h
    rcases get_list_eq_paginate db L req p hp with ⟨off0, heq⟩
    by_cases h0 : p = 0
    · subst h0
      have hu : (listView_get_list db L req).outcome
          = Outcome.redirect (req.pathInfo ++ "?page=1") := by
        rw [heq, paginate_page_zero]
      rw [get_of_redirect db L req cfg kwargs _ hu] at h
      cases h
    · by_cases h1 : p ≤ ((pagesOf db.length L : Nat) : Int)
      · rcases mapExcept_ok_of_forall (itemTransform true)
          (fetched db L ((p - 1) * (L : Int)))
          (fun d hd => itemTransform_ok_of_id true d
            (fetched_id_isSome db L _ hid d hd)) with ⟨ql, hm⟩
        have hq : (listView_get_list db L req).outcome = Outcome.query ql := by
          rw [heq, paginate_in_range_ok db L req (pagesOf db.length L)
            (pageRangeOf (pagesOf db.length L)) p off0 ql h0 h1 hm]
        rw [get_of_query db L req cfg kwargs ql hq] at h
        by_cases hlen : ql.length = 0
        · rw [if_pos hlen] at h
          exact (Except.error.injEq _ _).mp h |>.symm
        · rw [if_neg hlen] at h
          cases h
      · have hu : (listView_get_list db L req).outcome
            = Outcome.redirect
                (req.pathInfo ++ "?page=" ++ toString (pagesOf db.length L)) := by
          rw [heq, paginate_page_gt db L req (pagesOf db.length L)
            (pageRangeOf (pagesOf db.length L)) p off0 h0 h1]
        rw [get_of_redirect db L req cfg kwargs _ hu] at h
        cases h

/-- The five keys `BasePaginatedMongoMixin.get_context_data` writes after the
base context. -/
def pagKeys : List String :=
  ["page", "pages", "page_range", "previous_page_number", "next_page_number"]

theorem base_ctx_name (results : CtxVal) (name : String) (kwargs : Ctx) :
    dget (base_get_context_data results name kwargs) name
      = Option.some results := by
  unfold base_get_context_data
  exact dget_dset_self _ _ _

theorem base_ctx_object_list (results : CtxVal) (name : String) (kwargs : Ctx)
    (hobj : "object_list" ∉ dkeys kwargs) :
    dget (base_get_context_data results name kwargs) "object_list"
      = Option.some results := by
  unfold base_get_context_data
  by_cases hn : name = "object_list"
  · subst hn
    exact dget_dset_self _ _ _
  · rw [dget_dset_of_ne _ _ (fun he => hn he.symm),
      dget_dupdate_of_not_mem kwargs _ hobj]
    rfl

theorem base_ctx_kwargs (results : CtxVal) (name : String) (kwargs : Ctx)
    (hnd : (dkeys kwargs).Nodup) (hname : name ∉ dkeys kwargs) :
    ∀ p ∈ kwargs, dget (base_get_context_data results name kwargs) p.1
      = Option.some p.2 := by
  intro p hp
  unfold base_get_context_data
  have hpn : p.1 ≠ name :=
    fun he => hname (he ▸ List.mem_map.mpr ⟨p, hp, rfl⟩)
  rw [dget_dset_of_ne _ _ hpn]
  exact dget_dupdate_of_mem kwargs _ hnd hp

/-- C6 (amended): `get_context_data` maps `'object_list'` and
`context_object_name` to `self.results`, keeps every `kwargs` entry, and on
paginated views adds the five pagination keys — provided `kwargs` contains
neither `'object_list'` nor `context_object_name` nor a pagination key, and
`context_object_name` is not itself a pagination key; otherwise the later
dict assignments overwrite those entries (see the counterexample). -/
theorem mongolier_C6_amended (results : CtxVal) (name : String) (kwargs : Ctx)
    (pg pgs prange pv nx : CtxVal)
    (hnd : (dkeys kwargs).Nodup)
    (hobj : "object_list" ∉ dkeys kwargs)
    (hname : name ∉ dkeys kwargs)
    (hnp : name ∉ pagKeys)
    (hkp : ∀ k ∈ pagKeys, k ∉ dkeys kwargs) :
    (dget (base_get_context_data results name kwargs) "object_list"
        = Option.some results ∧
      dget (base_get_context_data results name kwargs) name
        = Option.some results ∧
      ∀ p ∈ kwargs, dget (base_get_context_data results name kwargs) p.1
        = Option.some p.2) ∧
    (dget (paginated_get_context_data results name pg pgs prange pv nx kwargs)
        "object_list" = Option.some results ∧
      dget (paginated_get_context_data results name pg pgs prange pv nx kwargs)
        name = Option.some results ∧
      dget (paginated_get_context_data results name pg pgs prange pv nx kwargs)
        "page" = Option.some pg ∧
      dget (paginated_get_context_data results name pg pgs prange pv nx kwargs)
        "pages" = Option.some pgs ∧
      dget (paginated_get_context_data results name pg pgs prange pv nx kwargs)
        "page_range" = Option.some prange ∧
      dget (paginated_get_context_data results name pg pgs prange pv nx kwargs)
        "previous_page_number" = Option.some pv ∧
      dget (paginated_get_context_data results name pg pgs prange pv nx kwargs)
        "next_page_number" = Option.some nx ∧
      ∀ p ∈ kwargs, dget
        (paginated_get_context_data results name pg pgs prange pv nx kwargs)
        p.1 = Option.some p.2) := by
  simp only [pagKeys, List.mem_cons, List.not_mem_nil, or_false] at hnp
  push_neg at hnp
  obtain ⟨hn1, hn2, hn3, hn4, hn5⟩ := hnp
  refine ⟨⟨base_ctx_object_list results name kwargs hobj,
    base_ctx_name results name kwargs,
    base_ctx_kwargs results name kwargs hnd hname⟩, ?_, ?_, ?_, ?_, ?_, ?_, ?_, ?_⟩
  · unfold paginated_get_context_data
    rw [dget_dset_of_ne _ _ (by decide), dget_dset_of_ne _ _ (by decide),
      dget_dset_of_ne _ _ (by decide), dget_dset_of_ne _ _ (by decide),
      dget_dset_of_ne _ _ (by decide)]
    exact base_ctx_object_list results name kwargs hobj
  · unfold paginated_get_context_data
    rw [dget_dset_of_ne _ _ hn5, dget_dset_of_ne _ _ hn4,
      dget_dset_of_ne _ _ hn3, dget_dset_of_ne _ _ hn2,
      dget_dset_of_ne _ _ hn1]
    exact base_ctx_name results name kwargs
  · unfold paginated_get_context_data
    rw [dget_dset_of_ne _ _ (by decide), dget_dset_of_ne _ _ (by decide),
      dget_dset_of_ne _ _ (by decide), dget_dset_of_ne _ _ (by decide)]
    exact dget_dset_self _ _ _
  · unfold paginated_get_context_data
    rw [dget_dset_of_ne _ _ (by decide), dget_dset_of_ne _ _ (by decide),
      dget_dset_of_ne _ _ (by decide)]
    exact dget_dset_self _ _ _
  · unfold paginated_get_context_data
    rw [dget_dset_of_ne _ _ (by decide), dget_dset_of_ne _ _ (by decide)]
    exact dget_dset_self _ _ _
  · unfold paginated_get_context_data
    rw [dget_dset_of_ne _ _ (by decide)]
    exact dget_dset_self _ _ _
  · unfold paginated_get_context_data
    exact dget_dset_self _ _ _
  · intro p hp
    have hpk : ∀ s : String, s ∈ pagKeys → p.1 ≠ s :=
      fun s hs he => hkp s hs (he ▸ List.mem_map.mpr ⟨p, hp, rfl⟩)
    unfold paginated_get_context_data
    rw [dget_dset_of_ne _ _ (hpk "next_page_number" (by decide)),
      dget_dset_of_ne _ _ (hpk "previous_page_number" (by decide)),
      dget_dset_of_ne _ _ (hpk "page_range" (by decide)),
      dget_dset_of_ne _ _ (hpk "pages" (by decide)),
      dget_dset_of_ne _ _ (hpk "page" (by decide))]
    exact base_ctx_kwargs results name kwargs hnd hname p hp

theorem mongolier_C6_counterexample :
    dget (base_get_context_data (CtxVal.int 1) "r"
        [("object_list", CtxVal.int 2)]) "object_list"
      ≠ Option.some (CtxVal.int 1) := by decide

theorem mongolier_C6_witness :
    dget (base_get_context_data (CtxVal.int 1) "objects"
        [("extra", CtxVal.str "v")]) "object_list"
      = Option.some (CtxVal.int 1) ∧
    dget (base_get_context_data (CtxVal.int 1) "objects"
        [("extra", CtxVal.str "v")]) "objects"
      = Option.some (CtxVal.int 1) ∧
    dget (base_get_context_data (CtxVal.int 1) "objects"
        [("extra", CtxVal.str "v")]) "extra"
      = Option.some (CtxVal.str "v") ∧
    dget (paginated_get_context_data (CtxVal.int 1) "objects" (CtxVal.int 1)
        (CtxVal.int 2) (CtxVal.intList [1, 2]) CtxVal.none (CtxVal.int 2)
        [("extra", CtxVal.str "v")]) "page"
      = Option.some (CtxVal.int 1) ∧
    dget (paginated_get_context_data (CtxVal.int 1) "objects" (CtxVal.int 1)
        (CtxVal.int 2) (CtxVal.intList [1, 2]) CtxVal.none (CtxVal.int 2)
        [("extra", CtxVal.str "v")]) "extra"
      = Option.some (CtxVal.str "v") :=
  have h := mongolier_C6_amended (CtxVal.int 1) "objects"
    [("extra", CtxVal.str "v")] (CtxVal.int 1) (CtxVal.int 2)
    (CtxVal.intList [1, 2]) CtxVal.none (CtxVal.int 2)
    (by decide) (by decide) (by decide) (by decide) (by decide)
  ⟨h.1.1, h.1.2.1, h.1.2.2 ("extra", CtxVal.str "v") (by decide), h.2.2.2.1,
    h.2.2.2.2.2.2.2.2 ("extra", CtxVal.str "v") (by decide)⟩

theorem itemTransform_ok_spec (addId : Bool) (item dq : Doc)
    (h : itemTransform addId item = Except.ok dq) :
    dget dq "_id" = Option.none ∧
    (addId = true → ∃ v, dget item "_id" = Option.some v ∧
      dget dq "id" = Option.some (Val.str (pyStr v))) ∧
    (addId = false → dget dq "id" = dget item "id") ∧
    (∀ k, k ≠ "_id" → k ≠ "id" → dget dq k = dget item k) := by
  cases addId with
  | false =>
    cases hv : dget item "_id" with
    | none => simp [itemTransform, hv] at h
    | some v =>
      simp [itemTransform, hv] at h
      subst h
      exact ⟨dget_dpop_self _ _, by simp,
        fun _ => dget_dpop_of_ne _ (by decide),
        fun k hk1 _ => dget_dpop_of_ne _ hk1⟩
  | true =>
    cases hv : dget item "_id" with
    | none => simp [itemTransform, hv] at h
    | some v =>
      have hsv : dget (dset item "id" (Val.str (pyStr v))) "_id"
          = Option.some v := by
        rw [dget_dset_of_ne _ _ (by decide)]
        exact hv
      simp [itemTransform, hv, hsv] at h
      subst h
      refine ⟨dget_dpop_self _ _, ?_, by simp, ?_⟩
      · intro _
        refine ⟨v, rfl, ?_⟩
        rw [dget_dpop_of_ne _ (by decide : ("id" : String) ≠ "_id"),
          dget_dset_self]
      · intro k hk1 hk2
        rw [dget_dpop_of_ne _ hk1, dget_dset_of_ne _ _ hk2]

/-- C10 (amended): every result dict of both list views has its `'_id'` key
removed; `ListView` always stores `str(item['_id'])` under `'id'`, and
`PagelessListView` does so exactly when `show_id` is true (passing an
existing `'id'` field through unchanged when `show_id` is false); every field
other than `'_id'` and `'id'` is passed through unchanged. The original
claim's "all other document fields are passed through unchanged" fails for a
document that already has an `'id'` field, which the added key overwrites
(see the counterexample). -/
theorem mongolier_C10_amended :
    (∀ db L req ql, 0 < L →
      (listView_get_list db L req).outcome = Outcome.query ql →
      ∀ dq ∈ ql, dget dq "_id" = Option.none ∧
        ∃ item ∈ db, (∃ v, dget item "_id" = Option.some v ∧
            dget dq "id" = Option.some (Val.str (pyStr v))) ∧
          ∀ k, k ≠ "_id" → k ≠ "id" → dget dq k = dget item k) ∧
    (∀ db show_id ql, pagelessListView_get_list db show_id = Except.ok ql →
      ∀ dq ∈ ql, dget dq "_id" = Option.none ∧
        ∃ item ∈ db,
          (show_id = true → ∃ v, dget item "_id" = Option.some v ∧
            dget dq "id" = Option.some (Val.str (pyStr v))) ∧
          (show_id = false → dget dq "id" = dget item "id") ∧
          ∀ k, k ≠ "_id" → k ≠ "id" → dget dq k = dget item k) := by
  constructor
  · intro db L req ql hL hq dq hdq
    rcases get_list_query_inv db L req ql hq with ⟨p, _, _, _, hm, _, _⟩
    rcases mapExcept_ok_mem hm dq hdq with ⟨item, hitem, hti⟩
    have hs := itemTransform_ok_spec true item dq hti
    have hmemdb : item ∈ db := by
      rw [fetched] at hitem
      exact List.drop_subset _ db (List.take_subset _ _ hitem)
    exact ⟨hs.1, item, hmemdb, hs.2.1 rfl, hs.2.2.2⟩
  · intro db show_id ql hql dq hdq
    rcases mapExcept_ok_mem hql dq hdq with ⟨item, hitem, hti⟩
    have hs := itemTransform_ok_spec show_id item dq hti
    exact ⟨hs.1, item, hitem, hs.2.1, hs.2.2.1, hs.2.2.2⟩

/-- A document that already carries an `'id'` field next to its `'_id'`. -/
def docIdX : Doc := [("_id", Val.int 7), ("id", Val.str "x")]

theorem mongolier_C10_counterexample :
    dget docIdX "id" = Option.some (Val.str "x") ∧
    (listView_get_list [docIdX] 25 ⟨Option.none, "/w"⟩).outcome
        = Outcome.query [[("id", Val.str "7")]] ∧
    Option.some (Val.str "7") ≠ Option.some (Val.str "x") := by decide

theorem mongolier_C10_witness :
    dget ([("id", Val.str "1")] : Doc) "_id" = Option.none ∧
      ∃ item ∈ dbW, (∃ v, dget item "_id" = Option.some v ∧
          dget ([("id", Val.str "1")] : Doc) "id"
            = Option.some (Val.str (pyStr v))) ∧
        ∀ k, k ≠ "_id" → k ≠ "id" →
          dget ([("id", Val.str "1")] : Doc) k = dget item k :=
  mongolier_C10_amended.1 dbW 2 reqPage1
    [[("id", Val.str "1")], [("id", Val.str "2")]] (by decide) (by decide)
    [("id", Val.str "1")] (by decide)

example : pyInt? "17" = Option.some 17 := by decide
example : pyInt? " -3 " = Option.some (-3) := by decide
example : pyInt? "abc" = Option.none := by decide
example : pyInt? "" = Option.none := by decide
example : pyInt? "1.5" = Option.none := by decide
example : dget (dset [("a", (1 : Int))] "a" 2) "a" = Option.some 2 := by decide
example : dpop [("_id", Val.int 1), ("x", Val.str "y")] "_id" = [("x", Val.str "y")] := by decide
